import Mathlib

/-!
Shallow embedding of the clipboard2markdown conversion pipeline
(src/main.js, src/modules/converter.js, src/modules/formatter.js,
src/modules/clipboard.js) together with theorems settling the claims
about it.

External collaborators (the Prettier markdown engine, the browser
clipboard and DOM) are modelled as explicit oracle parameters: a
function the embedded code calls, returning `Except` to model a
JavaScript throw.  The code of this repository itself is translated
definition by definition.
-/

namespace Clipboard2Markdown

/-! ## DOM node model

The converter reads only `nodeName`, `className`, `textContent`,
`parentNode.nodeName` and `querySelector("code")` from DOM nodes, so a
node is modelled by those attributes plus its ordered children. -/

inductive DomNode where
  | mk (nodeName className textContent : String) (children : List DomNode)

def DomNode.nodeName : DomNode → String
  | .mk n _ _ _ => n

def DomNode.className : DomNode → String
  | .mk _ c _ _ => c

def DomNode.textContent : DomNode → String
  | .mk _ _ t _ => t

def DomNode.children : DomNode → List DomNode
  | .mk _ _ _ cs => cs

mutual

/-- Strict descendants of a node in document (pre-)order. -/
def nodeDescendants : DomNode → List DomNode
  | .mk _ _ _ cs => listDescendants cs

def listDescendants : List DomNode → List DomNode
  | [] => []
  | c :: cs => c :: (nodeDescendants c ++ listDescendants cs)

end

/-- `node.querySelector("code")`: the first descendant element in
document order whose tag is `code` (element node names are stored
upper-case, as the source compares `node.nodeName === "CODE"`). -/
def querySelectorCode (n : DomNode) : Option DomNode :=
  (nodeDescendants n).find? (fun c => c.nodeName = "CODE")

/-! ## JavaScript string primitives used by the source -/

/-- The WhiteSpace/LineTerminator set of `String.prototype.trim`. -/
def isJsWhitespace (c : Char) : Bool :=
  c = ' ' || c = '\t' || c = '\n' || c = '\x0b' || c = '\x0c' || c = '\r' ||
  c = '\u00A0' || c = '\u1680' || ('\u2000' ≤ c && c ≤ '\u200A') ||
  c = '\u2028' || c = '\u2029' || c = '\u202F' || c = '\u205F' ||
  c = '\u3000' || c = '\uFEFF'

/-- `s.trim()`. -/
def jsTrim (s : String) : String :=
  String.mk (((s.data.dropWhile isJsWhitespace).reverse.dropWhile
    isJsWhitespace).reverse)

/-- `content.includes(char)` specialised to the backtick. -/
def containsBacktick (s : String) : Bool :=
  s.data.any (fun c => c = '\x60')

/-! ## The regex `/<\/?[a-z][\s\S]*>/i` of `isValidHtml` -/

def isAsciiLetter (c : Char) : Bool :=
  ('a' ≤ c && c ≤ 'z') || ('A' ≤ c && c ≤ 'Z')

def containsGt (l : List Char) : Bool :=
  l.any (fun c => c = '>')

/-- Does `/<\/?[a-z][\s\S]*>/i` match starting exactly here?  After
`</` only a letter can continue the match (the optional `/` consumed a
`/`, and the empty alternative would have to read the same `/` as a
letter, which fails). -/
def htmlTagAt : List Char → Bool
  | '<' :: '/' :: c :: rest => isAsciiLetter c && containsGt rest
  | '<' :: c :: rest => isAsciiLetter c && containsGt rest
  | _ => false

/-- `htmlTagPattern.test(str)`: the pattern matches at some position. -/
def htmlTagTest : List Char → Bool
  | [] => false
  | c :: cs => htmlTagAt (c :: cs) || htmlTagTest cs

/-! ## The regex `/(?:language-|lang-)(\w+)/` of `extractLanguageFromCode` -/

def isWordChar (c : Char) : Bool :=
  isAsciiLetter c || c.isDigit || c = '_'

/-- Maximal run of `\w` characters at the front of the list. -/
def takeWordChars : List Char → List Char
  | [] => []
  | c :: cs => if isWordChar c then c :: takeWordChars cs else []

/-- Drop the literal pattern from the front of the list, if present. -/
def dropLiteral : List Char → List Char → Option (List Char)
  | [], l => some l
  | _ :: _, [] => none
  | p :: ps, c :: cs => if p = c then dropLiteral ps cs else none

/-- One attempted match of `(?:language-|lang-)(\w+)` at this position,
returning the first capture.  The alternatives exclude each other
here: when `language-` is present the fifth character is `u`, so
`lang-` cannot also match. -/
def matchLangAt (l : List Char) : Option String :=
  match dropLiteral ("language-".data) l with
  | some rest =>
    let w := takeWordChars rest
    if w.isEmpty then none else some (String.mk w)
  | none =>
    match dropLiteral ("lang-".data) l with
    | some rest =>
      let w := takeWordChars rest
      if w.isEmpty then none else some (String.mk w)
    | none => none

/-- `className.match(/(?:language-|lang-)(\w+)/)`, first capture of the
leftmost match. -/
def languageMatch : List Char → Option String
  | [] => none
  | c :: cs =>
    match matchLangAt (c :: cs) with
    | some w => some w
    | none => languageMatch cs

/-! ## converter.js -/

/-- The configuration object passed to the `TurndownService`
constructor in `createTurndownService`. -/
structure TurndownOptions where
  headingStyle : String
  hr : String
  bulletListMarker : String
  codeBlockStyle : String
  fence : String
  emDelimiter : String
  strongDelimiter : String
  linkStyle : String
  linkReferenceStyle : String

/-- The options of `createTurndownService` (converter.js lines 13-23). -/
def converterOptions : TurndownOptions :=
  { headingStyle := "atx"
    hr := "---"
    bulletListMarker := "-"
    codeBlockStyle := "fenced"
    fence := "```"
    emDelimiter := "_"
    strongDelimiter := "**"
    linkStyle := "inlined"
    linkReferenceStyle := "full" }

/-- The tag list passed to `turndownService.remove` (converter.js
line 26). -/
def removedTags : List String :=
  ["script", "style", "noscript"]

/-- `extractLanguageFromCode(node)` (converter.js lines 66-78):
`node.querySelector("code") || node`, then the first capture of the
class name against `/(?:language-|lang-)(\w+)/`, or the empty
string. -/
def extractLanguageFromCode (node : DomNode) : String :=
  let codeElement := (querySelectorCode node).getD node
  let className := codeElement.className
  match languageMatch className.data with
  | some lang => lang
  | none => ""

/-- The replacement function of the `preserveCodeBlocks` rule
(converter.js lines 29-40).  The `content` argument of the source is
unused there and omitted. -/
def preserveCodeBlocksReplacement (node : DomNode) : String :=
  let codeContent :=
    match querySelectorCode node with
    | some codeElement => codeElement.textContent
    | none => node.textContent
  let language := extractLanguageFromCode node
  "\n```" ++ language ++ "\n" ++ jsTrim codeContent ++ "\n```\n"

/-- The filter of the `inlineCode` rule (converter.js lines 44-46):
a `code` element whose parent is not a `pre` element. -/
def inlineCodeFilter (nodeName parentNodeName : String) : Bool :=
  nodeName = "CODE" && parentNodeName ≠ "PRE"

/-- The replacement function of the `inlineCode` rule (converter.js
lines 47-55). -/
def inlineCodeReplacement (content : String) : String :=
  if jsTrim content = "" then ""
  else if containsBacktick content then "`` " ++ content ++ " ``"
  else "`" ++ content ++ "`"

/-- `isValidHtml(str)` (converter.js lines 101-109): non-empty and the
tag-presence regex matches.  The `typeof str !== "string"` guard of
the source is unrepresentable here because the model is typed. -/
def isValidHtml (str : String) : Bool :=
  if str = "" then false
  else htmlTagTest str.data

/-- `convertHtmlToMarkdown(html)` (converter.js lines 88-94),
parametric in the Turndown tree walk `td` (an external dependency):
throws on an empty input, otherwise returns `td html`. -/
def convertHtmlToMarkdown (td : String → String) (html : String) :
    Except String String :=
  if html = "" then
    Except.error "Invalid HTML input: expected a non-empty string"
  else
    Except.ok (td html)

/-! ## formatter.js -/

/-- `formatMarkdown(markdown)` (formatter.js lines 27-45), parametric
in the Prettier engine `fmt` (an external dependency; an `Except.error`
result models `prettier.format` throwing).  Throws on an empty input;
otherwise returns the formatted string, or on engine failure the
original input.  The merged options are constant here (the repository
always calls with the defaults), so they are absorbed into `fmt`. -/
def formatMarkdown (fmt : String → Except Unit String)
    (markdown : String) : Except String String :=
  if markdown = "" then
    Except.error "Invalid markdown input: expected a non-empty string"
  else
    match fmt markdown with
    | Except.ok formatted => Except.ok formatted
    | Except.error _ => Except.ok markdown

/-! ## main.js -/

/-- `processHtmlToMarkdown(html)` (main.js lines 39-47): step 1
converts, step 2 formats; there is no catch of its own, so an error of
either step propagates. -/
def processHtmlToMarkdown (td : String → String)
    (fmt : String → Except Unit String) (html : String) :
    Except String String :=
  match convertHtmlToMarkdown td html with
  | Except.error e => Except.error e
  | Except.ok rawMarkdown => formatMarkdown fmt rawMarkdown

/-- The observable outcome of `handleConversion` (main.js lines
53-79): aborted on invalid input before any conversion, output set on
success, or the caught-error path. -/
inductive ConvOutcome where
  | invalidInput
  | converted (markdown : String)
  | conversionError (message : String)
deriving DecidableEq

/-- `handleConversion(html)` (main.js lines 53-79): the
`!html || !html.trim()` guard, then the `isValidHtml` guard (both
abort before any tree walk), then `processHtmlToMarkdown` inside
try/catch. -/
def handleConversion (td : String → String)
    (fmt : String → Except Unit String) (html : String) : ConvOutcome :=
  if jsTrim html = "" then ConvOutcome.invalidInput
  else if isValidHtml html = false then ConvOutcome.invalidInput
  else
    match processHtmlToMarkdown td fmt html with
    | Except.ok markdown => ConvOutcome.converted markdown
    | Except.error e => ConvOutcome.conversionError e

/-! ## clipboard.js -/

/-- `copyToClipboard(text)` (clipboard.js lines 70-93), parametric in
the two external mechanisms: `primary` is `navigator.clipboard.writeText`
and `secondary` is the hidden-textarea-plus-execCommand sequence (an
`Except.error` models a throw).  Primary first; on its throw the
secondary; `false` only when both throw. -/
def copyToClipboard (primary secondary : String → Except Unit Unit)
    (text : String) : Bool :=
  match primary text with
  | Except.ok _ => true
  | Except.error _ =>
    match secondary text with
    | Except.ok _ => true
    | Except.error _ => false

/-! ## Tree walker (spec-modelled) -/

/-- ASCII lower-casing of a tag name, character by character. -/
def lowerTag (s : String) : String :=
  String.mk (s.data.map Char.toLower)

mutual

/-- Modelled from the spec: the Tree Walker/Emitter and the Rule
Registry (spec sections 4.1 and 4.2) live in the Turndown dependency,
not in this repository.  Per the spec, the walker visits a node,
emits all children bottom-up, and applies the matching rule to the
joined child content; `removeRule(tagNames)` "excises default handling
for given tags, causing silently-dropped output".  `dispatch`
abstracts the rule lookup (registry plus fallback): it maps a node and
its emitted child content to the replacement text.  `removed` is the
removed-tag list, compared against the lower-cased node name. -/
def emitNode (dispatch : DomNode → String → String)
    (removed : List String) : DomNode → String
  | DomNode.mk name cl txt cs =>
    if removed.contains (lowerTag name) then ""
    else dispatch (DomNode.mk name cl txt cs) (emitList dispatch removed cs)

/-- Modelled from the spec: concatenation of the emitted output of a
sibling list, in order (spec section 4.2, bottom-up emission). -/
def emitList (dispatch : DomNode → String → String)
    (removed : List String) : List DomNode → String
  | [] => ""
  | c :: cs => emitNode dispatch removed c ++ emitList dispatch removed cs

end

/-! ## Theorems settling the claims -/

/-- Claim C1: for every non-empty string input, `formatMarkdown` never
rejects due to an internal Prettier failure: when the Prettier engine
throws, `formatMarkdown` resolves with the original input string,
character-for-character unchanged. -/
theorem c1_formatMarkdown_returns_input_on_engine_failure
    (fmt : String → Except Unit String) (markdown : String)
    (hne : markdown ≠ "") (hfail : fmt markdown = Except.error ()) :
    formatMarkdown fmt markdown = Except.ok markdown := by
  simp [formatMarkdown, hne, hfail]

/-- Witness for C1: a concrete always-throwing engine and input. -/
theorem c1_witness :
    formatMarkdown (fun _ => Except.error ()) "# Title" =
      Except.ok "# Title" :=
  c1_formatMarkdown_returns_input_on_engine_failure
    (fun _ => Except.error ()) "# Title" (by decide) rfl

/-- Claim C2: every empty, whitespace-only or non-tag-matching input
makes the pipeline abort with the invalid-input outcome, independently
of the tree walker and formatter (so no tree walk is performed and no
output is produced); every string matching the tag-presence pattern
passes `isValidHtml`.  A missing or non-string input of the source is
unrepresentable in this typed model. -/
theorem c2_input_validation (html : String) :
    ((html = "" ∨ htmlTagTest html.data = false) →
      ∀ td fmt, handleConversion td fmt html = ConvOutcome.invalidInput) ∧
    (htmlTagTest html.data = true → isValidHtml html = true) := by
  constructor
  · rintro (h | h) td fmt
    · subst h
      have h0 : jsTrim "" = "" := by decide
      simp [handleConversion, h0]
    · by_cases hx : jsTrim html = ""
      · simp [handleConversion, hx]
      · have hv : isValidHtml html = false := by
          unfold isValidHtml
          split
          · rfl
          · exact h
        simp [handleConversion, hx, hv]
  · intro h
    have hne : html ≠ "" := by
      intro he
      subst he
      exact absurd h (by decide)
    simp [isValidHtml, hne, h]

/-- Witness for C2: the spec's `"not html at all"` example aborts, and
a concrete tag-bearing string passes validation. -/
theorem c2_witness :
    handleConversion (fun s => s) (fun s => Except.ok s) "not html at all" =
      ConvOutcome.invalidInput ∧
    isValidHtml "<p>Hello</p>" = true :=
  ⟨(c2_input_validation "not html at all").1 (Or.inr (by decide)) _ _,
   (c2_input_validation "<p>Hello</p>").2 (by decide)⟩

/-- Claim C8: `copyToClipboard` attempts the primary write first (on
its success the secondary mechanism is irrelevant), attempts the
secondary mechanism when the primary throws, and resolves `false`
exactly when both throw.  It never rejects: the embedded function is
total with result type `Bool`. -/
theorem c8_copyToClipboard_fallback
    (primary secondary : String → Except Unit Unit) (text : String) :
    (primary text = Except.ok () →
      ∀ secondary2, copyToClipboard primary secondary2 text = true) ∧
    (primary text = Except.error () → secondary text = Except.ok () →
      copyToClipboard primary secondary text = true) ∧
    (copyToClipboard primary secondary text = false ↔
      primary text = Except.error () ∧ secondary text = Except.error ()) := by
  refine ⟨?_, ?_, ?_⟩
  · intro h secondary2
    simp [copyToClipboard, h]
  · intro h1 h2
    simp [copyToClipboard, h1, h2]
  · constructor
    · intro h
      unfold copyToClipboard at h
      cases hp : primary text with
      | ok u =>
        rw [hp] at h
        simp at h
      | error e =>
        cases hs : secondary text with
        | ok u =>
          rw [hp, hs] at h
          simp at h
        | error e2 =>
          exact ⟨rfl, rfl⟩
    · rintro ⟨h1, h2⟩
      simp [copyToClipboard, h1, h2]

/-- Witness for C8: with both mechanisms throwing, the result is
`false`. -/
theorem c8_witness :
    copyToClipboard (fun _ => Except.error ()) (fun _ => Except.error ())
      "md" = false :=
  (c8_copyToClipboard_fallback (fun _ => Except.error ())
    (fun _ => Except.error ()) "md").2.2.mpr ⟨rfl, rfl⟩

/-- Counterexample for C3: `processHtmlToMarkdown` (main.js lines
39-47) contains no catch of its own, so when the tree walk yields the
empty string on a validated input (as Turndown does for a contentless
element such as `<p></p>`), the empty-input guard of `formatMarkdown`
throws and the rejection propagates out of the orchestrator. -/
theorem c3_counterexample :
    isValidHtml "<p></p>" = true ∧
    processHtmlToMarkdown (fun _ => "") (fun s => Except.ok s) "<p></p>" =
      Except.error "Invalid markdown input: expected a non-empty string" := by
  constructor
  · decide
  · rfl

/-- Claim C3 (amended): for every validated input the orchestrator
performs no catching of its own; whenever the step-2 raw Markdown is
non-empty it resolves with the formatted string or, on formatter
failure, the raw string, and whenever the step-2 raw Markdown is empty
it rejects with the formatter's invalid-input error. -/
theorem c3_orchestrator_resolution (td : String → String)
    (fmt : String → Except Unit String) (html : String)
    (hv : isValidHtml html = true) :
    (td html ≠ "" → processHtmlToMarkdown td fmt html =
      Except.ok (match fmt (td html) with
        | Except.ok formatted => formatted
        | Except.error _ => td html)) ∧
    (td html = "" → processHtmlToMarkdown td fmt html =
      Except.error "Invalid markdown input: expected a non-empty string") := by
  have hne : html ≠ "" := by
    intro he
    rw [he] at hv
    exact absurd hv (by decide)
  constructor
  · intro h
    simp only [processHtmlToMarkdown, convertHtmlToMarkdown, hne,
      formatMarkdown, h, if_neg, if_false, ite_false]
    cases hf : fmt (td html) <;> simp [hf]
  · intro h
    simp [processHtmlToMarkdown, convertHtmlToMarkdown, hne,
      formatMarkdown, h]

/-- Witness for C3's amended theorem: a concrete validated input, tree
walk and failing formatter, resolving with the raw Markdown. -/
theorem c3_witness :
    processHtmlToMarkdown (fun _ => "raw") (fun _ => Except.error ())
      "<p>hi</p>" = Except.ok "raw" :=
  (c3_orchestrator_resolution (fun _ => "raw") (fun _ => Except.error ())
    "<p>hi</p>" (by decide)).1 (by decide)

/-- Counterexample for C5: a single space is non-empty, backtick-free
content, so the claim as stated demands single-backtick wrapping, but
the rule (converter.js line 48) emits the empty string because the
trimmed content is empty. -/
theorem c5_counterexample :
    (" " : String) ≠ "" ∧ containsBacktick " " = false ∧
    inlineCodeReplacement " " ≠ "`" ++ " " ++ "`" := by
  refine ⟨by decide, by decide, by decide⟩

/-- Claim C5 (amended): for a `code` element not inside `pre`, content
whose trim is empty emits the empty string (not an empty backtick
pair); content containing a literal backtick is wrapped in
double-backtick delimiters with one padding space on each side; any
other content with non-empty trim is wrapped in single backticks with
no padding. -/
theorem c5_inline_code_emission (content : String) :
    (jsTrim content = "" → inlineCodeReplacement content = "") ∧
    (jsTrim content ≠ "" → containsBacktick content = true →
      inlineCodeReplacement content = "`` " ++ content ++ " ``") ∧
    (jsTrim content ≠ "" → containsBacktick content = false →
      inlineCodeReplacement content = "`" ++ content ++ "`") := by
  refine ⟨?_, ?_, ?_⟩
  · intro h
    simp [inlineCodeReplacement, h]
  · intro h hb
    simp [inlineCodeReplacement, h, hb]
  · intro h hb
    simp [inlineCodeReplacement, h, hb]

/-- Witness for C5's amended theorem: the spec's backtick-bearing
example and the empty-content example. -/
theorem c5_witness :
    inlineCodeReplacement "a\x60b" = "`` " ++ "a\x60b" ++ " ``" ∧
    inlineCodeReplacement "" = "" :=
  ⟨(c5_inline_code_emission "a\x60b").2.1 (by decide) (by decide),
   (c5_inline_code_emission "").1 (by decide)⟩

/-- Claim C9: whitespace-only content is treated the same as empty
content by the inline-code rule (the trimmed-emptiness test), and
whenever output is emitted at all, the content between the delimiters
is the original content unmodified. -/
theorem c9_inline_code_whitespace (content : String) :
    (content.data.all isJsWhitespace = true →
      inlineCodeReplacement content = "") ∧
    (inlineCodeReplacement content ≠ "" →
      inlineCodeReplacement content = "`" ++ content ++ "`" ∨
      inlineCodeReplacement content = "`` " ++ content ++ " ``") := by
  constructor
  · intro h
    have hd : content.data.dropWhile isJsWhitespace = [] := by
      rw [List.dropWhile_eq_nil_iff]
      intro x hx
      exact List.all_eq_true.mp h x hx
    have ht : jsTrim content = "" := by
      unfold jsTrim
      rw [hd]
      decide
    simp [inlineCodeReplacement, ht]
  · intro h
    by_cases ht : jsTrim content = ""
    · exact absurd (by simp [inlineCodeReplacement, ht]) h
    · by_cases hb : containsBacktick content = true
      · right
        simp [inlineCodeReplacement, ht, hb]
      · left
        simp [inlineCodeReplacement, ht, hb]

/-- Witness for C9: whitespace-only content emits nothing; padded
content is emitted with its padding intact. -/
theorem c9_witness :
    inlineCodeReplacement "  " = "" ∧
    (inlineCodeReplacement " a " = "`" ++ " a " ++ "`" ∨
      inlineCodeReplacement " a " = "`` " ++ " a " ++ " ``") :=
  ⟨(c9_inline_code_whitespace "  ").1 (by decide),
   (c9_inline_code_whitespace " a ").2 (by decide)⟩

/-- Claim C4: every `pre` element is emitted as a fenced block: the
configured fence token (which the rule writes literally and the
configuration sets to three backticks) immediately followed by the
info-string, then the trimmed text of the nested `code` element if one
is present, else the `pre` element's own trimmed text, then the
closing fence.  When a `code` element is present the info-string is
the first capture of its class attribute against
`(?:language-|lang-)(\w+)`, or the empty string if there is no match;
when none is present some info-string is still emitted (its derivation
is the subject of C10). -/
theorem c4_pre_fenced_block (node : DomNode) :
    converterOptions.fence = "```" ∧
    (∀ ce, querySelectorCode node = some ce →
      preserveCodeBlocksReplacement node =
        "\n```" ++ (languageMatch ce.className.data).getD "" ++ "\n" ++
          jsTrim ce.textContent ++ "\n```\n") ∧
    (querySelectorCode node = none →
      ∃ info, preserveCodeBlocksReplacement node =
        "\n```" ++ info ++ "\n" ++ jsTrim node.textContent ++ "\n```\n") := by
  refine ⟨rfl, ?_, ?_⟩
  · intro ce h
    unfold preserveCodeBlocksReplacement extractLanguageFromCode
    rw [h]
    cases hl : languageMatch ce.className.data <;> simp [hl, Option.getD]
  · intro h
    refine ⟨extractLanguageFromCode node, ?_⟩
    unfold preserveCodeBlocksReplacement
    rw [h]

/-- Witness for C4: the spec's python example. -/
theorem c4_witness :
    preserveCodeBlocksReplacement
      (DomNode.mk "PRE" "" "print(\"hi\")"
        [DomNode.mk "CODE" "language-python" "print(\"hi\")" []]) =
      "\n```python\nprint(\"hi\")\n```\n" := by
  have h := (c4_pre_fenced_block
    (DomNode.mk "PRE" "" "print(\"hi\")"
      [DomNode.mk "CODE" "language-python" "print(\"hi\")" []])).2.1
    (DomNode.mk "CODE" "language-python" "print(\"hi\")" []) rfl
  rw [h]
  decide

/-- Claim C10: when a `pre` element has no nested `code` element, the
fence info-string is derived by matching `(?:language-|lang-)(\w+)`
against the `pre` element's own class attribute (the
`querySelector("code") || node` fallback of
`extractLanguageFromCode`). -/
theorem c10_pre_without_code (node : DomNode)
    (h : querySelectorCode node = none) :
    preserveCodeBlocksReplacement node =
      "\n```" ++ (languageMatch node.className.data).getD "" ++ "\n" ++
        jsTrim node.textContent ++ "\n```\n" := by
  unfold preserveCodeBlocksReplacement extractLanguageFromCode
  rw [h]
  cases hl : languageMatch node.className.data <;> simp [hl, Option.getD]

/-- Witness for C10: `<pre class="language-js">x</pre>` becomes a
fenced block with info-string `js`. -/
theorem c10_witness :
    preserveCodeBlocksReplacement (DomNode.mk "PRE" "language-js" "x" []) =
      "\n```js\nx\n```\n" := by
  rw [c10_pre_without_code (DomNode.mk "PRE" "language-js" "x" []) rfl]
  decide

/-- Claim C6: a node whose lower-cased tag is on the removed-tag list
`["script", "style", "noscript"]` emits nothing, whatever its content
and whatever the rule dispatch, and deleting it from any sibling list
leaves the emitted output unchanged — the subtree contributes zero
characters to the conversion output. -/
theorem c6_removed_tags_contribute_nothing
    (dispatch : DomNode → String → String) (n : DomNode)
    (h : removedTags.contains (lowerTag n.nodeName) = true) :
    emitNode dispatch removedTags n = "" ∧
    ∀ before after,
      emitList dispatch removedTags (before ++ n :: after) =
        emitList dispatch removedTags (before ++ after) := by
  have h0 : emitNode dispatch removedTags n = "" := by
    cases n with
    | mk name cl txt cs =>
      simp only [DomNode.nodeName] at h
      unfold emitNode
      rw [if_pos h]
  refine ⟨h0, ?_⟩
  intro before after
  induction before with
  | nil => simp [emitList, h0]
  | cons head tail ih => simp [emitList, ih]

/-- Witness for C6: a concrete `script` node with content emits the
empty string. -/
theorem c6_witness :
    emitNode (fun _ content => content) removedTags
      (DomNode.mk "SCRIPT" "" "alert(1)" []) = "" :=
  (c6_removed_tags_contribute_nothing (fun _ content => content)
    (DomNode.mk "SCRIPT" "" "alert(1)" []) (by decide)).1

end Clipboard2Markdown
